import Mathlib

/-!
Verification of the QuantumState remediation core: a shallow embedding of
the action queue claiming protocol (infra/mcp-runner/runner.py), the
dedup/cooldown gate (backend/routers/pipeline.py), the runner execution and
finalize steps, the workflow trigger (backend/routers/remediate.py) and the
Guardian verification loop (backend/routers/guardian.py), together with
theorems settling the stated properties.
-/

namespace QuantumState

/-- Python substring test (the `in` operator on strings), on lists of
characters: `strIn needle hay` is true when `needle` occurs contiguously
inside `hay`. -/
def strIn (needle : List Char) : List Char → Bool
  | [] => needle.isEmpty
  | c :: t => needle.isPrefixOf (c :: t) || strIn needle t

/-- Python `needle in hay` on strings. -/
def pyIn (needle hay : String) : Bool :=
  strIn needle.toList hay.toList

/-- Python `s.upper()` (ASCII, which covers every status string used by
the system). -/
def pyUpper (s : String) : String :=
  String.mk (s.data.map Char.toUpper)

/-- Python `s.lower()` (ASCII, which covers the service names and the
keywords the code scans for). -/
def pyLower (s : String) : String :=
  String.mk (s.data.map Char.toLower)

/-! ## Action queue claiming (runner.py, `lock_and_process` lines 123-139)

The runner polls one `status="pending"` document together with its
`_seq_no` and `_primary_term`, then issues a conditional update to
`status="executing"` carrying those values. -/

/-- State of one remediation-action document in the store, as seen by the
claiming protocol: its status plus the optimistic-concurrency version
(`_seq_no`, `_primary_term`). -/
structure ActionState where
  status : String
  seq_no : Nat
  primary_term : Nat
deriving Repr, DecidableEq

/-- Version token read from a search hit (`hit["_seq_no"]`,
`hit["_primary_term"]`). -/
structure VersionToken where
  seq_no : Nat
  primary_term : Nat
deriving Repr, DecidableEq

/-- Modelled from the spec: the document store itself is an external
collaborator (spec §6, "point writes with optimistic-concurrency tokens").
A conditional update succeeds only when the supplied token equals the
stored document version, in which case the document is rewritten and its
sequence number advances; otherwise a conflict is raised and nothing is
written. -/
def casUpdate (st : ActionState) (tok : VersionToken) (newStatus : String) :
    Option ActionState :=
  if st.seq_no = tok.seq_no ∧ st.primary_term = tok.primary_term then
    some { status := newStatus, seq_no := st.seq_no + 1, primary_term := st.primary_term }
  else
    none

/-- One claim attempt from `lock_and_process`: the conditional update to
`status="executing"`. On `ConflictError` the runner abandons the item and
the document is unchanged. Returns the resulting document state and whether
the claim succeeded. -/
def claimAttempt (st : ActionState) (tok : VersionToken) : ActionState × Bool :=
  match casUpdate st tok "executing" with
  | some st' => (st', true)
  | none => (st, false)

/-- N claim attempts serialized by the store, each carrying the token it
read; returns the final document state and the success flag of each
attempt in order. -/
def runClaimAttempts (st : ActionState) : List VersionToken → ActionState × List Bool
  | [] => (st, [])
  | t :: ts =>
      let r := claimAttempt st t
      let rest := runClaimAttempts r.1 ts
      (rest.1, r.2 :: rest.2)

theorem claimAttempt_stale (st : ActionState) (t : VersionToken)
    (h : t.seq_no ≠ st.seq_no) : claimAttempt st t = (st, false) := by
  simp only [claimAttempt, casUpdate]
  rw [if_neg]
  rintro ⟨h1, _⟩
  exact h h1.symm

theorem runClaimAttempts_stale (st : ActionState) (ts : List VersionToken)
    (h : ∀ t ∈ ts, t.seq_no ≠ st.seq_no) :
    runClaimAttempts st ts = (st, List.replicate ts.length false) := by
  induction ts with
  | nil => rfl
  | cons t ts ih =>
      have ht := claimAttempt_stale st t (h t (by simp))
      simp only [runClaimAttempts, ht]
      rw [ih (fun u hu => h u (by simp [hu]))]
      rfl

/-- C1: with the action `pending` and every one of the N attempts carrying
the version token read while it was pending, exactly one attempt succeeds
(the action moves to `executing`), the other N-1 attempts get a conflict,
and the conflicting attempts write nothing: the final document state is
exactly the one produced by the single successful claim. -/
theorem C1_exactly_once_claim (st : ActionState) (toks : List VersionToken)
    (hpending : st.status = "pending")
    (hread : ∀ t ∈ toks, t = ⟨st.seq_no, st.primary_term⟩)
    (hne : toks ≠ []) :
    (runClaimAttempts st toks).2.count true = 1 ∧
    (runClaimAttempts st toks).2.count false = toks.length - 1 ∧
    (runClaimAttempts st toks).1 =
      { status := "executing", seq_no := st.seq_no + 1, primary_term := st.primary_term } := by
  obtain ⟨t, ts, rfl⟩ := List.exists_cons_of_ne_nil hne
  have ht : t = ⟨st.seq_no, st.primary_term⟩ := hread t (by simp)
  have hfirst : claimAttempt st t =
      ({ status := "executing", seq_no := st.seq_no + 1, primary_term := st.primary_term }, true) := by
    subst ht
    simp [claimAttempt, casUpdate]
  have hrest := runClaimAttempts_stale
      { status := "executing", seq_no := st.seq_no + 1, primary_term := st.primary_term } ts
      (by
        intro u hu
        have := hread u (by simp [hu])
        subst this
        simp [Nat.ne_of_lt (Nat.lt_succ_self st.seq_no)])
  simp only [runClaimAttempts, hfirst, hrest]
  refine ⟨?_, ?_, trivial⟩
  · simp [List.count_cons, List.count_replicate]
  · simp [List.count_cons, List.count_replicate]

/-- Witness for C1 at a concrete input: three attempts on a pending
document at version (0, 1), all carrying token (0, 1). -/
theorem C1_exactly_once_claim_witness :
    (runClaimAttempts ⟨"pending", 0, 1⟩ [⟨0, 1⟩, ⟨0, 1⟩, ⟨0, 1⟩]).2.count true = 1 ∧
    (runClaimAttempts ⟨"pending", 0, 1⟩ [⟨0, 1⟩, ⟨0, 1⟩, ⟨0, 1⟩]).2.count false = 2 := by
  have h := C1_exactly_once_claim ⟨"pending", 0, 1⟩ [⟨0, 1⟩, ⟨0, 1⟩, ⟨0, 1⟩]
    rfl (by decide) (by decide)
  exact ⟨h.1, h.2.1⟩

/-! ## Dedup / cooldown gate (pipeline.py, `_pipeline_body` lines 283-342)

The pipeline looks at the Cassandra output, collects the known services
mentioned in it, and for each one queries the most recent
pipeline-originated incident inside the 15-minute window, blocking the run
when every detected service is either actively remediating or in cooldown. -/

/-- Hard-coded list of known services (pipeline.py line 285). -/
def KNOWN_SERVICES : List String :=
  ["payment-service", "checkout-service", "auth-service", "inventory-service"]

/-- One stored incident document as read by the gate: the service term, the
pipeline_run flag, the resolution_status field, and its age in minutes
derived from the @timestamp field. -/
structure StoredIncident where
  service : String
  pipeline_run : Bool
  resolution_status : String
  ageMinutes : ℚ
deriving Repr, DecidableEq

/-- The gate query: most recent incident for the service with
pipeline_run=true and @timestamp within the last 15 minutes (size 1, sorted
by @timestamp descending). The store is represented as the list of incident
documents sorted newest first, so the query is the first matching entry. -/
def recentIncident (store : List StoredIncident) (svc : String) :
    Option StoredIncident :=
  store.find? (fun d => d.service == svc && d.pipeline_run && decide (d.ageMinutes ≤ 15))

/-- The per-document block decision (pipeline.py lines 317-332): block when
REMEDIATING and younger than 15 minutes, block when RESOLVED and younger
than 15 minutes, allow otherwise. -/
def gateBlocksDoc (d : StoredIncident) : Bool :=
  (pyUpper d.resolution_status == "REMEDIATING" && decide (d.ageMinutes < 15)) ||
  (pyUpper d.resolution_status == "RESOLVED" && decide (d.ageMinutes < 15))

/-- Whether the gate treats a detected service as handled (blocked). -/
def serviceBlocked (store : List StoredIncident) (svc : String) : Bool :=
  match recentIncident store svc with
  | none => false
  | some d => gateBlocksDoc d

/-- Services the gate evaluates: the known services whose name occurs as a
substring of the lowercased Cassandra output (pipeline.py line 286). -/
def detectedServices (cassandra_output : String) : List String :=
  KNOWN_SERVICES.filter (fun s => pyIn s (pyLower cassandra_output))

/-- Whole-run gate decision: the run proceeds when no known service was
detected or at least one detected service is not blocked; it stops when
every detected service is blocked (pipeline.py lines 287-340). -/
def gateAllowsRun (store : List StoredIncident) (cassandra_output : String) : Bool :=
  let det := detectedServices cassandra_output
  det.isEmpty || !(det.filter (fun s => !serviceBlocked store s)).isEmpty

/-- C2: the gate blocks a service exactly when the most recent
pipeline-originated incident for it inside the 15-minute window is
REMEDIATING with age below 15 minutes or RESOLVED with age below 15
minutes, and allows in every other case (no record found means allow); in
particular a REMEDIATING incident aged 5 minutes blocks and one aged 20
minutes (outside the query window) allows. -/
theorem C2_gate_decision (store : List StoredIncident) (svc : String) :
    (serviceBlocked store svc = true ↔
      ∃ d, recentIncident store svc = some d ∧
        (pyUpper d.resolution_status = "REMEDIATING" ∨
         pyUpper d.resolution_status = "RESOLVED") ∧
        d.ageMinutes < 15) ∧
    serviceBlocked [⟨"payment-service", true, "REMEDIATING", 5⟩] "payment-service" = true ∧
    serviceBlocked [⟨"payment-service", true, "REMEDIATING", 20⟩] "payment-service" = false ∧
    serviceBlocked [⟨"payment-service", true, "RESOLVED", 5⟩] "payment-service" = true ∧
    serviceBlocked [⟨"payment-service", true, "RESOLVED", 20⟩] "payment-service" = false ∧
    serviceBlocked [⟨"payment-service", true, "ESCALATE", 5⟩] "payment-service" = false ∧
    serviceBlocked [⟨"payment-service", true, "MONITORING", 5⟩] "payment-service" = false ∧
    serviceBlocked [] "payment-service" = false := by
  refine ⟨?_, by decide, by decide, by decide, by decide, by decide, by decide, by decide⟩
  unfold serviceBlocked
  cases h : recentIncident store svc with
  | none => simp [h]
  | some d =>
      simp only [h, gateBlocksDoc, Bool.or_eq_true, Bool.and_eq_true,
        beq_iff_eq, decide_eq_true_eq, Option.some.injEq]
      constructor
      · rintro (⟨h1, h2⟩ | ⟨h1, h2⟩)
        · exact ⟨d, rfl, Or.inl h1, h2⟩
        · exact ⟨d, rfl, Or.inr h1, h2⟩
      · rintro ⟨e, rfl, (h1 | h1), h2⟩
        · exact Or.inl ⟨h1, h2⟩
        · exact Or.inr ⟨h1, h2⟩

/-- C10 counterexample: a Cassandra output that names the unknown service
search-service alongside payment-service, while payment-service has a
REMEDIATING incident aged 5 minutes. The unknown service is indeed never
subjected to the check (it is not among the detected services), but the
gate blocks the whole run, so the detection naming search-service does not
pass the gate — refuting the final part of the claim. -/
theorem C10_counterexample :
    pyIn "search-service"
      (pyLower "anomaly in payment-service and search-service") = true ∧
    ("search-service" ∈ KNOWN_SERVICES) = False ∧
    gateAllowsRun [⟨"payment-service", true, "REMEDIATING", 5⟩]
      "anomaly in payment-service and search-service" = false := by
  refine ⟨by decide, by simp [KNOWN_SERVICES], by decide⟩

/-- C10 amended: the gate only ever evaluates the four hard-coded known
services (every detected service belongs to that list, so a service outside
it is never subjected to the dedup/cooldown check), and a detection naming
no known service always passes the gate; but when a detection also names
known services that are all blocked, the whole run — including the unknown
service — is blocked. -/
theorem C10_unknown_services (cassandra_output : String)
    (store : List StoredIncident) :
    (∀ s ∈ detectedServices cassandra_output, s ∈ KNOWN_SERVICES) ∧
    (detectedServices cassandra_output = [] →
      gateAllowsRun store cassandra_output = true) := by
  constructor
  · intro s hs
    exact (List.mem_filter.mp hs).1
  · intro h
    simp [gateAllowsRun, h]

/-- Witness for C10 at a concrete input: an output naming only the unknown
service search-service is not gated and the run proceeds. -/
theorem C10_unknown_services_witness :
    gateAllowsRun [] "anomaly detected in search-service" = true :=
  (C10_unknown_services "anomaly detected in search-service" []).2 (by decide)

/-! ## Runner execution (runner.py, `execute_action` lines 63-96)

Each action kind maps to docker-mcp calls; the outcome of each call is
external, so it is a parameter of the model. The model also returns the
list of mcp calls issued, in order, so that "no side effect" is a statement
about the emitted trace. -/

/-- One docker-mcp invocation, as issued by `_mcp_call`. -/
inductive MCPCall where
  | docker_restart (container_name : String)
  | docker_stop (container_name : String)
  | docker_run (image name : String) (detach : Bool)
deriving Repr, DecidableEq

/-- Result of `_mcp_call`. -/
structure MCPResult where
  ok : Bool
  output : String
deriving Repr, DecidableEq

/-- Container name mapping (runner.py lines 30-35). -/
def CONTAINER_MAP : List (String × String) :=
  [("payment-service", "payment-service"),
   ("checkout-service", "checkout-service"),
   ("auth-service", "auth-service"),
   ("inventory-service", "inventory-service")]

def REDIS_CONTAINER : String := "auth-redis"

/-- CONTAINER_MAP.get(service, service). -/
def containerFor (service : String) : String :=
  match CONTAINER_MAP.lookup service with
  | some c => c
  | none => service

/-- The runner `execute_action`: routes the action kind to docker-mcp
calls. `mcp` gives the (external) outcome of each call and `now` stands for
`int(time.time())` in the scale_cache container name. Returns the final
result together with the trace of mcp calls issued. -/
def execute_action (mcp : MCPCall → MCPResult) (now : Nat)
    (action service : String) : MCPResult × List MCPCall :=
  let container := containerFor service
  if action = "restart_service" then
    (mcp (.docker_restart container), [.docker_restart container])
  else if action = "rollback_deployment" then
    let stopCall : MCPCall := .docker_stop container
    let startCall : MCPCall :=
      .docker_run ("quantumstate/" ++ container ++ ":previous") container true
    (if (mcp stopCall).ok then mcp startCall else mcp stopCall,
     [stopCall, startCall])
  else if action = "scale_cache" then
    let c : MCPCall :=
      .docker_run "redis:7-alpine" (container ++ "-cache-" ++ toString now) true
    (mcp c, [c])
  else if action = "restart_dependency" then
    (mcp (.docker_restart REDIS_CONTAINER), [.docker_restart REDIS_CONTAINER])
  else
    ({ ok := false, output := "Unknown action: " ++ action }, [])

/-! ## Workflow trigger (remediate.py, `trigger_kibana_workflow` lines 261-347)

The endpoint first attempts the Kibana workflow run when workflow id,
Kibana url and api key are all configured, and then always writes the
pending action document to the store. -/

/-- Request body of POST /api/workflow/trigger. -/
structure WorkflowTriggerRequest where
  incident_id : String
  service : String
  action : String
  anomaly_type : String
  root_cause : String
  confidence_score : ℚ
  risk_level : String
deriving Repr, DecidableEq

/-- The action document indexed into remediation-actions-quantumstate by
the trigger endpoint. -/
structure PendingActionDoc where
  incident_id : String
  service : String
  action : String
  anomaly_type : String
  root_cause : String
  confidence_score : ℚ
  risk_level : String
  triggered_by : String
  status : String
  workflow_triggered : Bool
  exec_id : String
deriving Repr, DecidableEq

/-- The document built at remediate.py lines 308-324: status is always
"pending" and the action kind is stored as received, with no validation. -/
def pendingDoc (req : WorkflowTriggerRequest) (workflow_triggered : Bool)
    (exec_id : String) : PendingActionDoc :=
  { incident_id := req.incident_id,
    service := req.service,
    action := req.action,
    anomaly_type := req.anomaly_type,
    root_cause := req.root_cause,
    confidence_score := req.confidence_score,
    risk_level := req.risk_level,
    triggered_by := "surgeon-agent",
    status := "pending",
    workflow_triggered := workflow_triggered,
    exec_id := exec_id }

/-- Externally visible steps of the trigger endpoint, in order. -/
inductive TriggerEffect where
  | kibanaWorkflowRun (workflow_id : String)
  | esIndexAction (doc : PendingActionDoc)
deriving Repr, DecidableEq

/-- The trigger endpoint: when workflow_id, kibana_url and api_key are all
non-empty it first posts the Kibana workflow run (whose success `wfOk` is
external), then always indexes the pending action document. Returns the
ordered effect trace and the workflow_triggered flag of the response. -/
def trigger_kibana_workflow (workflow_id kibana_url api_key : String)
    (req : WorkflowTriggerRequest) (exec_id : String) (wfOk : Bool) :
    List TriggerEffect × Bool :=
  let configured := workflow_id != "" && kibana_url != "" && api_key != ""
  let workflow_triggered := configured && wfOk
  ((if configured then [TriggerEffect.kibanaWorkflowRun workflow_id] else []) ++
    [TriggerEffect.esIndexAction (pendingDoc req workflow_triggered exec_id)],
   workflow_triggered)

/-- C3: for an action whose kind is none of the four known kinds, storing
it through the trigger endpoint succeeds (the document is written with
status pending and the kind kept verbatim, with no validation), while the
runner Execute step fails immediately — result not ok — and issues no
docker-mcp call at all. -/
theorem C3_unknown_kind (action service : String) (mcp : MCPCall → MCPResult)
    (now : Nat) (req : WorkflowTriggerRequest) (wt : Bool) (exec_id : String)
    (hreq : req.action = action)
    (h : action ∉ ["rollback_deployment", "restart_service", "scale_cache",
                   "restart_dependency"]) :
    (pendingDoc req wt exec_id).status = "pending" ∧
    (pendingDoc req wt exec_id).action = action ∧
    (execute_action mcp now action service).1.ok = false ∧
    (execute_action mcp now action service).2 = [] := by
  simp only [List.mem_cons, List.not_mem_nil, or_false, not_or] at h
  obtain ⟨h1, h2, h3, h4⟩ := h
  refine ⟨rfl, hreq, ?_, ?_⟩ <;>
    simp [execute_action, h1, h2, h3, h4]

/-- Witness for C3 at a concrete input: the unknown kind
"drop_all_tables". -/
theorem C3_unknown_kind_witness :
    (pendingDoc ⟨"inc-1", "payment-service", "drop_all_tables", "memory_leak",
        "bad deploy", 9/10, "low"⟩ false "ab12cd34").status = "pending" ∧
    (pendingDoc ⟨"inc-1", "payment-service", "drop_all_tables", "memory_leak",
        "bad deploy", 9/10, "low"⟩ false "ab12cd34").action = "drop_all_tables" ∧
    (execute_action (fun _ => ⟨true, "ok"⟩) 0 "drop_all_tables"
        "payment-service").1.ok = false ∧
    (execute_action (fun _ => ⟨true, "ok"⟩) 0 "drop_all_tables"
        "payment-service").2 = [] :=
  C3_unknown_kind "drop_all_tables" "payment-service" (fun _ => ⟨true, "ok"⟩) 0
    ⟨"inc-1", "payment-service", "drop_all_tables", "memory_leak",
      "bad deploy", 9/10, "low"⟩ false "ab12cd34" rfl (by decide)

/-- C7 counterexample: with the Kibana workflow configured (non-empty
workflow id, url and api key), the first effect of the trigger endpoint is
the Kibana workflow run — a remediation side effect performed before the
pending RemediationAction document is written — refuting the claim that
the pending record is durably written before any side effect. -/
theorem C7_counterexample :
    (trigger_kibana_workflow "wf-1" "https://kb.example" "key-1"
        ⟨"inc-1", "payment-service", "restart_service", "memory_leak",
          "bad deploy", 9/10, "low"⟩ "ab12cd34" true).1.head? =
      some (TriggerEffect.kibanaWorkflowRun "wf-1") ∧
    ∀ d, (trigger_kibana_workflow "wf-1" "https://kb.example" "key-1"
        ⟨"inc-1", "payment-service", "restart_service", "memory_leak",
          "bad deploy", 9/10, "low"⟩ "ab12cd34" true).1.head? ≠
      some (TriggerEffect.esIndexAction d) := by
  constructor
  · rfl
  · intro d h
    simp [trigger_kibana_workflow] at h

/-- C7 amended: the trigger endpoint always writes the pending action
document, as its last step; when the Kibana workflow is not configured
(workflow id, Kibana url or api key empty) the pending write is the only
effect, so no side effect precedes it; when configured, exactly one effect
— the Kibana workflow run attempt — precedes the pending write. -/
theorem C7_pending_write_order (workflow_id kibana_url api_key : String)
    (req : WorkflowTriggerRequest) (exec_id : String) (wfOk : Bool) :
    (trigger_kibana_workflow workflow_id kibana_url api_key req exec_id wfOk).1.getLast? =
      some (TriggerEffect.esIndexAction
        (pendingDoc req
          ((workflow_id != "" && kibana_url != "" && api_key != "") && wfOk) exec_id)) ∧
    ((workflow_id != "" && kibana_url != "" && api_key != "") = false →
      (trigger_kibana_workflow workflow_id kibana_url api_key req exec_id wfOk).1 =
        [TriggerEffect.esIndexAction (pendingDoc req false exec_id)]) := by
  constructor
  · by_cases h : (workflow_id != "" && kibana_url != "" && api_key != "") = true
    · simp [trigger_kibana_workflow, h]
    · simp only [Bool.not_eq_true] at h
      simp [trigger_kibana_workflow, h]
  · intro h
    simp [trigger_kibana_workflow, h]

/-- Witness for C7 amended at a concrete input: with no workflow id
configured, the trace is exactly the single pending write. -/
theorem C7_pending_write_order_witness :
    (trigger_kibana_workflow "" "https://kb.example" "key-1"
        ⟨"inc-1", "payment-service", "restart_service", "memory_leak",
          "bad deploy", 9/10, "low"⟩ "ab12cd34" true).1 =
      [TriggerEffect.esIndexAction
        (pendingDoc ⟨"inc-1", "payment-service", "restart_service",
          "memory_leak", "bad deploy", 9/10, "low"⟩ false "ab12cd34")] :=
  (C7_pending_write_order "" "https://kb.example" "key-1"
      ⟨"inc-1", "payment-service", "restart_service", "memory_leak",
        "bad deploy", 9/10, "low"⟩ "ab12cd34" true).2 (by decide)

/-! ## Finalize and result records (runner.py lines 149-176,
remediate.py `execute_remediation` lines 200-234)

The store is modelled as the list of action documents (each with its
document id and exec_id) together with the list of result records. -/

/-- One remediation-action document, as finalized. -/
structure ActionRecord where
  id : Nat
  exec_id : String
  service : String
  action : String
  status : String
deriving Repr, DecidableEq

/-- One remediation-results-quantumstate record. -/
structure ResultRecord where
  exec_id : String
  outcome : String
deriving Repr, DecidableEq

/-- The durable state the invariant speaks about. -/
structure Store where
  actions : List ActionRecord
  results : List ResultRecord
deriving Repr, DecidableEq

/-- Every action whose status is executed or failed has a result record
with the same exec_id. -/
def resultInvariant (s : Store) : Bool :=
  s.actions.all fun a =>
    (a.status != "executed" && a.status != "failed") ||
      s.results.any (fun r => r.exec_id == a.exec_id)

/-- The runner finalize step (runner.py lines 149-176): update the claimed
document (by document id) to executed or failed according to the execution
outcome, then index a result record carrying the document exec_id and the
same final status. -/
def runnerFinalize (s : Store) (doc : ActionRecord) (ok : Bool) : Store :=
  let final := if ok then "executed" else "failed"
  { actions := s.actions.map fun a =>
      if a.id = doc.id then { a with status := final } else a,
    results := s.results ++ [⟨doc.exec_id, final⟩] }

/-- The /api/remediate endpoint (remediate.py lines 200-234): on the
success path it writes recovery metrics, indexes a new action document with
status executed, and indexes a result record with outcome success; when the
body raises — modelled at its first step, the recovery-metrics write — the
except branch indexes a new action document with status failed and writes
no result record. `bodyOk` says whether the try body succeeded. -/
def execute_remediation (s : Store) (service action : String)
    (exec_id : String) (newId : Nat) (bodyOk : Bool) : Store :=
  if bodyOk then
    { actions := s.actions ++ [⟨newId, exec_id, service, action, "executed"⟩],
      results := s.results ++ [⟨exec_id, "success"⟩] }
  else
    { actions := s.actions ++ [⟨newId, exec_id, service, action, "failed"⟩],
      results := s.results }

/-- C4 counterexample: starting from the empty store (which satisfies the
invariant), the failure path of execute_remediation leaves a `failed`
action with exec_id ab12cd34 and no result record at all, so the invariant
is broken by a finalizing operation of the code. -/
theorem C4_counterexample :
    resultInvariant ⟨[], []⟩ = true ∧
    (execute_remediation ⟨[], []⟩ "payment-service" "restart_service"
        "ab12cd34" 0 false).actions.any
      (fun a => a.status == "failed" && a.exec_id == "ab12cd34") = true ∧
    resultInvariant (execute_remediation ⟨[], []⟩ "payment-service"
        "restart_service" "ab12cd34" 0 false) = false := by
  refine ⟨rfl, rfl, by decide⟩

theorem any_result_append (rs : List ResultRecord) (r : ResultRecord)
    (e : String) (h : rs.any (fun x => x.exec_id == e) = true) :
    (rs ++ [r]).any (fun x => x.exec_id == e) = true := by
  simp only [List.any_append, Bool.or_eq_true]
  exact Or.inl h

/-- C4 amended: the Runner finalize always writes a result record matching
the finalized action exec_id and so preserves the invariant (provided every
action document sharing the claimed document id carries its exec_id, as
document ids are unique in the store), and the success path of
execute_remediation preserves it as well; only the exception path of
execute_remediation violates it, writing a failed action with no result
record. -/
theorem C4_result_invariant (s : Store) (doc : ActionRecord) (ok : Bool)
    (service action exec_id : String) (newId : Nat)
    (hs : resultInvariant s = true)
    (hid : ∀ a ∈ s.actions, a.id = doc.id → a.exec_id = doc.exec_id) :
    resultInvariant (runnerFinalize s doc ok) = true ∧
    resultInvariant (execute_remediation s service action exec_id newId true) = true := by
  simp only [resultInvariant, List.all_eq_true] at hs
  constructor
  · simp only [resultInvariant, runnerFinalize, List.all_eq_true, List.mem_map]
    rintro x ⟨a, ha, rfl⟩
    by_cases hEq : a.id = doc.id
    · simp only [if_pos hEq, Bool.or_eq_true, List.any_append]
      refine Or.inr ?_
      simp [hid a ha hEq]
    · simp only [if_neg hEq]
      have := hs a ha
      rcases Bool.or_eq_true _ _ |>.mp this with h | h
      · exact Bool.or_eq_true _ _ |>.mpr (Or.inl h)
      · exact Bool.or_eq_true _ _ |>.mpr
          (Or.inr (any_result_append _ _ _ h))
  · simp only [resultInvariant, execute_remediation, if_pos, List.all_append,
      List.all_eq_true, Bool.and_eq_true]
    constructor
    · intro a ha
      have := hs a ha
      rcases Bool.or_eq_true _ _ |>.mp this with h | h
      · exact Bool.or_eq_true _ _ |>.mpr (Or.inl h)
      · exact Bool.or_eq_true _ _ |>.mpr
          (Or.inr (any_result_append _ _ _ h))
    · intro a ha
      simp only [List.mem_singleton] at ha
      subst ha
      simp

/-- Witness for C4 amended at a concrete input: finalizing a claimed
document in a one-action store, and the success path of
execute_remediation on the empty store. -/
theorem C4_result_invariant_witness :
    resultInvariant (runnerFinalize
      ⟨[⟨7, "ab12cd34", "payment-service", "restart_service", "executing"⟩], []⟩
      ⟨7, "ab12cd34", "payment-service", "restart_service", "executing"⟩ true) = true ∧
    resultInvariant (execute_remediation
      ⟨[⟨7, "ab12cd34", "payment-service", "restart_service", "executing"⟩], []⟩
      "auth-service" "scale_cache" "ef56ab78" 8 true) = true := by
  have h := C4_result_invariant
    ⟨[⟨7, "ab12cd34", "payment-service", "restart_service", "executing"⟩], []⟩
    ⟨7, "ab12cd34", "payment-service", "restart_service", "executing"⟩ true
    "auth-service" "scale_cache" "ef56ab78" 8 (by decide) (by decide)
  exact h

/-! ## Guardian incident patch (guardian.py, `_find_incident` lines 105-123
and `_update_incident` lines 126-145) -/

/-- One incident document as read and patched by the Guardian. -/
structure Incident where
  service : String
  pipeline_run : Bool
  resolution_status : String
  guardian_verified : Bool
  mttr_seconds : Nat
  ageMinutes : ℚ
deriving Repr, DecidableEq

/-- The Guardian incident lookup: most recent incident for the service with
pipeline_run=true inside the last `since_minutes` minutes (the callers pass
the default 60), with no condition at all on resolution_status. The store
is the list of incident documents sorted newest first. -/
def find_incident (store : List Incident) (service : String)
    (since_minutes : ℚ) : Option Incident :=
  store.find? fun d =>
    d.service == service && d.pipeline_run && decide (d.ageMinutes ≤ since_minutes)

/-- The Guardian incident patch: set resolution_status from the verdict
(RESOLVED exactly when the verdict is RESOLVED, ESCALATE for anything
else), set guardian_verified and mttr_seconds. The current status is not
read. -/
def update_incident (inc : Incident) (verdict : String) (mttr_seconds : Nat) :
    Incident :=
  let status := if verdict = "RESOLVED" then "RESOLVED" else "ESCALATE"
  { inc with
    resolution_status := status,
    guardian_verified := true,
    mttr_seconds := mttr_seconds }

/-- C5 counterexample: an incident already in the terminal state RESOLVED
is still returned by the Guardian lookup (which never filters on status),
and the verification patch with an ESCALATE verdict changes its
resolution_status to ESCALATE — an edge out of a terminal state, refuting
the claim. -/
theorem C5_counterexample :
    find_incident [⟨"payment-service", true, "RESOLVED", true, 120, 5⟩]
        "payment-service" 60 =
      some ⟨"payment-service", true, "RESOLVED", true, 120, 5⟩ ∧
    (update_incident ⟨"payment-service", true, "RESOLVED", true, 120, 5⟩
        "ESCALATE" 300).resolution_status = "ESCALATE" := by
  exact ⟨by decide, rfl⟩

/-- C5 amended: the verification patch always moves the located incident to
a terminal status determined solely by the verdict — RESOLVED exactly when
the verdict is RESOLVED, ESCALATE otherwise — and marks it
guardian_verified; it is the only modeled operation that rewrites the
resolution_status of an existing incident, but it does not guard terminal
states: the patch never reads the current status, so an already-terminal
incident found by the lookup is re-patched and RESOLVED can become
ESCALATE. -/
theorem C5_terminal_patch (inc : Incident) (verdict : String) (mttr : Nat) :
    ((update_incident inc verdict mttr).resolution_status = "RESOLVED" ∨
     (update_incident inc verdict mttr).resolution_status = "ESCALATE") ∧
    ((update_incident inc verdict mttr).resolution_status = "RESOLVED" ↔
      verdict = "RESOLVED") ∧
    (update_incident inc verdict mttr).guardian_verified = true ∧
    update_incident { inc with resolution_status := "RESOLVED" } verdict mttr =
      update_incident { inc with resolution_status := "MONITORING" } verdict mttr := by
  refine ⟨?_, ?_, rfl, ?_⟩
  · by_cases h : verdict = "RESOLVED"
    · exact Or.inl (by simp [update_incident, h])
    · exact Or.inr (by simp [update_incident, h])
  · by_cases h : verdict = "RESOLVED"
    · simp [update_incident, h]
    · simp [update_incident, h]
  · simp [update_incident]

/-! ## Guardian verdict parsing (guardian.py lines 198-208 and 420-422)

When the parsed verdict field is neither RESOLVED nor ESCALATE, the code
falls back to a keyword scan of the raw output. -/

/-- The fallback keyword heuristic: RESOLVED when the word resolved occurs
in the lowercased raw output, ESCALATE otherwise. -/
def fallbackVerdict (full_output : String) : String :=
  if pyIn "resolved" (pyLower full_output) then "RESOLVED" else "ESCALATE"

/-- The full verdict computation: uppercase the parsed verdict field, keep
it when it is RESOLVED or ESCALATE, fall back to the keyword heuristic
otherwise. -/
def guardianVerdict (parsed_verdict_field full_output : String) : String :=
  let v := pyUpper parsed_verdict_field
  if v = "RESOLVED" ∨ v = "ESCALATE" then v else fallbackVerdict full_output

/-- C6: when no verdict field parses to RESOLVED or ESCALATE, the computed
verdict comes from the keyword heuristic on the raw text: it is RESOLVED
exactly when the literal word resolved occurs in the lowercased raw output
— so an output with no such keyword (ambiguous) defaults to ESCALATE, and
a RESOLVED verdict is never produced unless the raw text itself contains
the word. -/
theorem C6_fallback_heuristic (parsed_verdict_field full_output : String)
    (h : pyUpper parsed_verdict_field ≠ "RESOLVED" ∧
         pyUpper parsed_verdict_field ≠ "ESCALATE") :
    guardianVerdict parsed_verdict_field full_output =
      fallbackVerdict full_output ∧
    (guardianVerdict parsed_verdict_field full_output = "RESOLVED" ↔
      pyIn "resolved" (pyLower full_output) = true) ∧
    (pyIn "resolved" (pyLower full_output) = false →
      guardianVerdict parsed_verdict_field full_output = "ESCALATE") := by
  have hg : guardianVerdict parsed_verdict_field full_output =
      fallbackVerdict full_output := by
    simp only [guardianVerdict]
    rw [if_neg]
    rintro (h1 | h2)
    · exact h.1 h1
    · exact h.2 h2
  refine ⟨hg, ?_, ?_⟩
  · rw [hg]
    unfold fallbackVerdict
    by_cases hk : pyIn "resolved" (pyLower full_output) = true
    · simp [hk]
    · simp only [Bool.not_eq_true] at hk
      simp [hk]
  · intro hk
    rw [hg]
    simp [fallbackVerdict, hk]

/-- Witness for C6 at a concrete input: an empty parsed verdict field and a
raw output not containing the word resolved. -/
theorem C6_fallback_heuristic_witness :
    guardianVerdict "" "metrics still degraded" =
      fallbackVerdict "metrics still degraded" ∧
    (guardianVerdict "" "metrics still degraded" = "RESOLVED" ↔
      pyIn "resolved" (pyLower "metrics still degraded") = true) ∧
    (pyIn "resolved" (pyLower "metrics still degraded") = false →
      guardianVerdict "" "metrics still degraded" = "ESCALATE") :=
  C6_fallback_heuristic "" "metrics still degraded" (by decide)

/-! ## Guardian background scan (guardian.py, `_do_scan` lines 259-307)

For each candidate executed action, the scan first consults the in-memory
checked set, adds the exec_id, and only then calls the Guardian agent; an
exception from the agent call is caught and logged. The agent call outcome
is external, so it is an oracle parameter. -/

/-- One executed action as returned by the scan query. -/
structure ExecutedAction where
  exec_id : String
  service : String
deriving Repr, DecidableEq

/-- Outcome of a successful `_run_guardian_agent` call: the verdict and
whether `_find_incident` located an incident to patch. -/
structure GuardianOutcome where
  verdict : String
  incidentFound : Bool
deriving Repr, DecidableEq

/-- Externally visible steps of processing one candidate. -/
inductive ScanEffect where
  | verifyCall (exec_id : String)
  | patchIncident (exec_id : String)
  | auditRecord (exec_id : String)
deriving Repr, DecidableEq

/-- Processing of one candidate inside the `_do_scan` loop: skip it with no
effect when its exec_id is in the checked set; otherwise add the exec_id
first and then run the Guardian agent (`agent`, the external call: error
means the call raised). On success the incident is patched when one is
found and the audit record is always appended; on error nothing further
happens (the exception is logged). Returns the new checked set and the
effect trace. -/
def scanStep (agent : String → Except Unit GuardianOutcome)
    (checked : List String) (a : ExecutedAction) :
    List String × List ScanEffect :=
  if a.exec_id ∈ checked then (checked, [])
  else
    let checked' := a.exec_id :: checked
    match agent a.exec_id with
    | .error _ => (checked', [ScanEffect.verifyCall a.exec_id])
    | .ok o =>
        (checked',
         ScanEffect.verifyCall a.exec_id ::
           ((if o.incidentFound then [ScanEffect.patchIncident a.exec_id] else []) ++
            [ScanEffect.auditRecord a.exec_id]))

/-- One full `_do_scan` pass over the candidate list. -/
def do_scan (agent : String → Except Unit GuardianOutcome) :
    List String → List ExecutedAction → List String × List ScanEffect
  | checked, [] => (checked, [])
  | checked, a :: rest =>
      let r := scanStep agent checked a
      let rr := do_scan agent r.1 rest
      (rr.1, r.2 ++ rr.2)

theorem scanStep_mem (agent : String → Except Unit GuardianOutcome)
    (checked : List String) (a : ExecutedAction)
    (h : a.exec_id ∈ checked) : scanStep agent checked a = (checked, []) := by
  simp [scanStep, h]

theorem scanStep_checked_subset (agent : String → Except Unit GuardianOutcome)
    (checked : List String) (a : ExecutedAction) (x : String)
    (h : x ∈ checked) : x ∈ (scanStep agent checked a).1 := by
  by_cases hm : a.exec_id ∈ checked
  · rw [scanStep_mem agent checked a hm]; exact h
  · simp only [scanStep, if_neg hm]
    cases agent a.exec_id <;> simp [h]

theorem scanStep_adds (agent : String → Except Unit GuardianOutcome)
    (checked : List String) (a : ExecutedAction) :
    a.exec_id ∈ (scanStep agent checked a).1 := by
  by_cases hm : a.exec_id ∈ checked
  · rw [scanStep_mem agent checked a hm]; exact hm
  · simp only [scanStep, if_neg hm]
    cases agent a.exec_id <;> simp

theorem do_scan_checked_subset (agent : String → Except Unit GuardianOutcome)
    (acts : List ExecutedAction) (checked : List String) (x : String)
    (h : x ∈ checked) : x ∈ (do_scan agent checked acts).1 := by
  induction acts generalizing checked with
  | nil => exact h
  | cons a rest ih =>
      exact ih (scanStep agent checked a).1
        (scanStep_checked_subset agent checked a x h)

theorem do_scan_covers (agent : String → Except Unit GuardianOutcome)
    (acts : List ExecutedAction) (checked : List String) (a : ExecutedAction)
    (h : a ∈ acts) : a.exec_id ∈ (do_scan agent checked acts).1 := by
  induction acts generalizing checked with
  | nil => cases h
  | cons b rest ih =>
      rcases List.mem_cons.mp h with rfl | h
      · exact do_scan_checked_subset agent rest (scanStep agent checked a).1
          a.exec_id (scanStep_adds agent checked a)
      · exact ih (scanStep agent checked b).1 h

theorem do_scan_all_checked (agent : String → Except Unit GuardianOutcome)
    (acts : List ExecutedAction) (checked : List String)
    (h : ∀ a ∈ acts, a.exec_id ∈ checked) :
    do_scan agent checked acts = (checked, []) := by
  induction acts with
  | nil => rfl
  | cons a rest ih =>
      have hm := scanStep_mem agent checked a (h a (by simp))
      simp only [do_scan, hm]
      rw [ih (fun b hb => h b (by simp [hb]))]
      rfl

/-- C8: re-scanning is idempotent with respect to the in-memory checked
set: after one `_do_scan` pass over a candidate list, a second pass over
the same list — with any agent behaviour whatsoever — emits no effect at
all: no verification call is re-invoked and no incident is re-patched for
an already-processed exec_id. -/
theorem C8_rescan_idempotent
    (agent agent2 : String → Except Unit GuardianOutcome)
    (checked : List String) (acts : List ExecutedAction) :
    do_scan agent2 (do_scan agent checked acts).1 acts =
      ((do_scan agent checked acts).1, []) :=
  do_scan_all_checked agent2 acts (do_scan agent checked acts).1
    (fun a ha => do_scan_covers agent acts checked a ha)

/-- C9: each candidate exec_id is added to the checked set before the
verification call, so when the agent call raises, the only effect is the
attempted verification call (no patch, no audit), the exec_id is in the
checked set anyway, and any later encounter of the same action — even with
an agent that would now succeed — is skipped with no effect: a failed
verification is never retried within the process lifetime. -/
theorem C9_failed_verification_not_retried
    (agent agent2 : String → Except Unit GuardianOutcome)
    (checked : List String) (a : ExecutedAction)
    (hnew : a.exec_id ∉ checked) (hfail : agent a.exec_id = .error ()) :
    (scanStep agent checked a).2 = [ScanEffect.verifyCall a.exec_id] ∧
    a.exec_id ∈ (scanStep agent checked a).1 ∧
    scanStep agent2 (scanStep agent checked a).1 a =
      ((scanStep agent checked a).1, []) := by
  refine ⟨?_, scanStep_adds agent checked a,
    scanStep_mem agent2 _ a (scanStep_adds agent checked a)⟩
  simp [scanStep, hnew, hfail]

/-- Witness for C9 at a concrete input: an empty checked set, an action
whose first verification raises, and a second agent that would succeed. -/
theorem C9_failed_verification_not_retried_witness :
    (scanStep (fun _ => .error ()) [] ⟨"ab12cd34", "payment-service"⟩).2 =
      [ScanEffect.verifyCall "ab12cd34"] ∧
    "ab12cd34" ∈ (scanStep (fun _ => .error ()) []
      ⟨"ab12cd34", "payment-service"⟩).1 ∧
    scanStep (fun _ => .ok ⟨"RESOLVED", true⟩)
        (scanStep (fun _ => .error ()) [] ⟨"ab12cd34", "payment-service"⟩).1
        ⟨"ab12cd34", "payment-service"⟩ =
      ((scanStep (fun _ => .error ()) [] ⟨"ab12cd34", "payment-service"⟩).1, []) :=
  C9_failed_verification_not_retried (fun _ => .error ())
    (fun _ => .ok ⟨"RESOLVED", true⟩) [] ⟨"ab12cd34", "payment-service"⟩
    (by decide) rfl

end QuantumState
